import Mathlib

/-!
Shallow embedding of `fluent_comments/views.py` (django-fluent-comments):
the Ajax comment-posting view `post_comment_ajax`, the JSON envelope
builder `_ajax_result`, and the per-field error renderer `_render_errors`.

External collaborators (Django's model registry, object lookup, comment
form, signal registries, template renderer) are modelled as components of
an explicit environment `Env`; the view logic itself is translated
line by line from the source.
-/

namespace FluentComments

/-- A single quote character, used when the source formats a value with `%r`. -/
def apos : String := String.singleton (Char.ofNat 39)

/-- The HTML escaping of one character, as `django.utils.html.escape` does it. -/
def escapeChar (c : Char) : String :=
  if c == Char.ofNat 38 then "&amp;"
  else if c == Char.ofNat 60 then "&lt;"
  else if c == Char.ofNat 62 then "&gt;"
  else if c == Char.ofNat 34 then "&quot;"
  else if c == Char.ofNat 39 then "&#39;"
  else String.singleton c

/-- HTML escaping of a string (`django.utils.html.escape`). -/
def escapeHtml (s : String) : String :=
  String.join (s.toList.map escapeChar)

/-- Python `"%r" % s` on an (escaped) string value: the value wrapped in quotes. -/
def quoteRepr (s : String) : String := apos ++ s ++ apos

/-- Python `s.split(sep, 1)`: split at the first occurrence of the separator
character, yielding one or two parts. Auxiliary recursion over characters. -/
def splitFirstAux (sep : Char) : List Char → List Char → List String
  | [], acc => [String.mk acc.reverse]
  | c :: rest, acc =>
    if c == sep then [String.mk acc.reverse, String.mk rest]
    else splitFirstAux sep rest (c :: acc)

/-- Python `s.split(sep, 1)` for a one-character separator. -/
def splitOnce (s : String) (sep : Char) : List String :=
  splitFirstAux sep s.toList []

/-- The working field set: the copied POST data, a key-value mapping. -/
abbrev FieldData := List (String × String)

/-- Python `data.get(key)`: the value bound to a key, if present. -/
def getField (data : FieldData) (k : String) : Option String :=
  data.lookup k

/-- Python `key in data`: key presence, regardless of the value. -/
def hasField (data : FieldData) (k : String) : Bool :=
  (getField data k).isSome

/-- Python `data[key] = v`: bind a key, replacing any existing binding. -/
def setField (data : FieldData) (k v : String) : FieldData :=
  if (data.lookup k).isSome then
    data.map (fun p => if p.1 == k then (k, v) else p)
  else data ++ [(k, v)]

/-- The resolved target entity (`model._default_manager.get(pk=object_pk)`). -/
structure Target where
  model : String
  pk : String
  deriving DecidableEq

/-- Outcome of the primary-key lookup on a resolved model: the found object,
`ObjectDoesNotExist`, or a `ValueError` / `ValidationError` carrying the
exception class name. -/
inductive LookupResult where
  | found (target : Target)
  | objectDoesNotExist
  | raised (excName : String)
  deriving DecidableEq

/-- A comment model instance. The view only ever sets `ipAddress`, `user`
and (via saving) `id`; all content fields live with the external form layer. -/
structure Comment where
  ipAddress : Option String := none
  user : Option String := none
  id : Option Nat := none
  deriving DecidableEq

/-- The bound comment form, as the external form layer reports it:
its security errors (`form.security_errors()`, `none` when empty), its
validation errors (`form.errors`, the list of field names carrying errors),
and the comment object it would construct (`form.get_comment_object()`). -/
structure Form where
  securityErrors : Option String
  errors : List String
  commentObject : Comment
  deriving DecidableEq

/-- `form.get_comment_object()`: a freshly constructed, unsaved model
instance, whose primary key is not yet assigned. -/
def Form.getCommentObject (form : Form) : Comment :=
  { form.commentObject with id := none }

/-- A receiver registered on the `comment_will_be_posted` signal: its
`__name__` and the response it returns for a given comment
(`some false` stands for an explicit `False`). -/
structure Receiver where
  name : String
  respond : Comment → Option Bool

/-- The JSON envelope built by `_ajax_result`. -/
structure JsonEnvelope where
  success : Bool
  action : String
  errors : List (String × String)
  html : Option String
  commentId : Option Nat
  deriving DecidableEq

/-- An HTTP response of the view: a 400 bad-request with a plain-text
message (`CommentPostBadRequest` / `HttpResponseBadRequest`), or a JSON
response (`HttpResponse` with mimetype `application/json`). -/
inductive Response where
  | badRequest (msg : String)
  | json (body : JsonEnvelope)
  deriving DecidableEq

/-- Observable side effects of one request, in order: a pre-save receiver
invoked by `comment_will_be_posted.send`, the database write of
`comment.save()`, a post-save receiver invoked by `comment_was_posted.send`. -/
inductive Effect where
  | preSaveInvoked (receiverName : String)
  | savedComment (c : Comment)
  | postSaveInvoked (receiverName : String)
  deriving DecidableEq

/-- The external collaborators of the view: model registry, object lookup,
form construction, the two signal registries, the id the storage engine
assigns on insert, and the template renderer. -/
structure Env where
  getModel : String → String → Option String
  lookup : String → String → LookupResult
  form : Target → FieldData → Form
  receivers : List Receiver
  postReceivers : List String
  nextId : Nat
  renderComment : Comment → String → Bool → String
  renderFieldError : String → String

/-- The incoming HTTP request, as far as the view inspects it. -/
structure Request where
  post : FieldData
  isAjax : Bool
  userAuthenticated : Bool
  userFullName : String
  userUsername : String
  userEmail : String
  remoteAddr : Option String

/-- Lines 34-39: copy the POST data and, for an authenticated user, fill a
blank `name` from the full name (or the username when that is empty) and a
blank `email` from the account email. -/
def fillAuthData (req : Request) : FieldData :=
  if req.userAuthenticated then
    let d1 :=
      if (getField req.post "name").getD "" == "" then
        setField req.post "name"
          (if req.userFullName == "" then req.userUsername else req.userFullName)
      else req.post
    if (getField d1 "email").getD "" == "" then
      setField d1 "email" req.userEmail
    else d1
  else req.post

/-- Lines 46-63: resolve `content_type` and `object_pk` into a target
object, mapping each failure to its `CommentPostBadRequest`. A one-part
split makes `models.get_model` raise `TypeError`; an unknown model returns
`None`, whose `_default_manager` access raises `AttributeError`. -/
def resolveTarget (env : Env) (ctype objectPk : String) : Except Response Target :=
  match splitOnce ctype (Char.ofNat 46) with
  | [appLabel, modelName] =>
    match env.getModel appLabel modelName with
    | none =>
      .error (.badRequest ("The given content-type " ++ quoteRepr (escapeHtml ctype) ++
        " does not resolve to a valid model."))
    | some model =>
      match env.lookup model objectPk with
      | .found target => .ok target
      | .objectDoesNotExist =>
        .error (.badRequest ("No object matching content-type " ++
          quoteRepr (escapeHtml ctype) ++ " and object PK " ++
          quoteRepr (escapeHtml objectPk) ++ " exists."))
      | .raised excName =>
        .error (.badRequest ("Attempting go get content-type " ++
          quoteRepr (escapeHtml ctype) ++ " and object PK " ++
          quoteRepr (escapeHtml objectPk) ++ " exists raised " ++ excName))
  | _ =>
    .error (.badRequest ("Invalid content_type value: " ++ quoteRepr (escapeHtml ctype)))

/-- Line 154-158: `_render_errors`, rendering one field's errors through the
configured crispy-forms template; delegated to the environment's renderer. -/
def render_errors (env : Env) (fieldName : String) : String :=
  env.renderFieldError fieldName

/-- Lines 114-147: `_ajax_result`. Build the JSON envelope: `success` is
false exactly when the form has errors; `errors` maps each erroring field to
its rendered fragment; `html` renders the comment when one is present;
`comment_id` is the comment's id when a comment is present. -/
def ajax_result (env : Env) (form : Form) (action : String)
    (comment : Option Comment) : Response :=
  let success := form.errors.isEmpty
  let jsonErrors := form.errors.map (fun f => (f, render_errors env f))
  let commentHtml := comment.map (fun c => env.renderComment c action (action == "preview"))
  .json { success := success, action := action, errors := jsonErrors,
          html := commentHtml, commentId := comment.bind (fun c => c.id) }

/-- Lines 86-89: the comment object on the persist path, with the IP address
taken from the request metadata and the user attached when authenticated. -/
def builtComment (req : Request) (form : Form) : Comment :=
  let c1 := { form.getCommentObject with ipAddress := req.remoteAddr }
  if req.userAuthenticated then { c1 with user := some req.userUsername } else c1

/-- Lines 92-96: `comment_will_be_posted.send` calls every registered
receiver in registration order and collects `(receiver, response)` pairs. -/
def preSaveResponses (env : Env) (c : Comment) : List (String × Option Bool) :=
  env.receivers.map (fun r => (r.name, r.respond c))

/-- The invocation effects of the pre-save dispatch: one per registered
receiver, in registration order. -/
def preSaveEffects (env : Env) : List Effect :=
  env.receivers.map (fun r => Effect.preSaveInvoked r.name)

/-- Lines 98-101: scan the collected responses in order and return the name
of the first receiver whose response compares equal to `False`. -/
def findVeto : List (String × Option Bool) → Option String
  | [] => none
  | (name, resp) :: rest =>
    if resp == some false then some name else findVeto rest

/-- The veto message of lines 100-101 for a given receiver name. -/
def vetoMsg (name : String) : String :=
  "comment_will_be_posted receiver " ++ quoteRepr name ++ " killed the comment"

/-- Lines 85-111: the persist path. Build the comment, dispatch the pre-save
signal, abort 400 on the first explicit `False` response, otherwise save the
comment (the storage engine assigns its id) and dispatch the post-save
signal, then return the `"post"` envelope with the saved comment. -/
def persistPath (env : Env) (req : Request) (form : Form) : Response × List Effect :=
  let comment := builtComment req form
  let responses := preSaveResponses env comment
  match findVeto responses with
  | some name => (.badRequest (vetoMsg name), preSaveEffects env)
  | none =>
    let saved := { comment with id := some env.nextId }
    (ajax_result env form "post" (some saved),
     preSaveEffects env ++ [Effect.savedComment saved] ++
       env.postReceivers.map Effect.postSaveInvoked)

/-- Lines 66-111 after target resolution: compute the preview flag, build
the form, check security, then branch to the preview envelope, the
validation-error envelope, or the persist path. -/
def handleForm (env : Env) (req : Request) (data : FieldData)
    (target : Target) : Response × List Effect :=
  let preview := hasField data "preview"
  let form := env.form target data
  match form.securityErrors with
  | some errs =>
    (.badRequest ("The comment form failed security verification: " ++ escapeHtml errs), [])
  | none =>
    if preview then
      (ajax_result env form "preview"
        (if form.errors.isEmpty then some form.getCommentObject else none), [])
    else if !form.errors.isEmpty then
      (ajax_result env form "post" none, [])
    else
      persistPath env req form

/-- Lines 18-111: `post_comment_ajax`. Reject non-Ajax requests, fill the
working data, require `content_type` and `object_pk`, resolve the target,
and hand over to the form stage. Returns the response together with the
ordered log of side effects. -/
def post_comment_ajax (env : Env) (req : Request) : Response × List Effect :=
  if !req.isAjax then (.badRequest "Expecting Ajax call", [])
  else
    let data := fillAuthData req
    match getField data "content_type", getField data "object_pk" with
    | some ctype, some objectPk =>
      match resolveTarget env ctype objectPk with
      | .error resp => (resp, [])
      | .ok target => handleForm env req data target
    | _, _ => (.badRequest "Missing content_type or object_pk field.", [])

/-- Whether an effect is the database write of `comment.save()`. -/
def isSave : Effect → Bool
  | .savedComment _ => true
  | _ => false

/-- The number of database writes in an effect log. -/
def savesCount (effs : List Effect) : Nat := effs.countP isSave

/-- Control reaches the persist path exactly when: the request is Ajax, both
required fields are present, the target resolves, the preview flag is
absent, and the form has neither security errors nor validation errors;
the reached form is returned. -/
def reachesPersist (env : Env) (req : Request) : Option Form :=
  if !req.isAjax then none
  else
    let data := fillAuthData req
    match getField data "content_type", getField data "object_pk" with
    | some ctype, some objectPk =>
      match resolveTarget env ctype objectPk with
      | .error _ => none
      | .ok target =>
        let form := env.form target data
        match form.securityErrors with
        | some _ => none
        | none =>
          if hasField data "preview" then none
          else if !form.errors.isEmpty then none
          else some form
    | _, _ => none

/-- The persistence condition of the specification invariant: the persist
path is reached and no pre-save receiver vetoes the built comment. -/
def persistConds (env : Env) (req : Request) : Bool :=
  match reachesPersist env req with
  | some form => (findVeto (preSaveResponses env (builtComment req form))).isNone
  | none => false

/-- The action field of a response, when it is a JSON envelope. -/
def responseAction : Response → Option String
  | .badRequest _ => none
  | .json body => some body.action

/-! ### Concrete environment and requests used to instantiate the theorems -/

/-- A concrete environment: one registered model `app.model`, a lookup that
finds pk `"1"`, reports `ObjectDoesNotExist` for pk `"404"` and raises
`ValueError` otherwise, and a form layer that flags a security error when a
`badsec` field is posted and a validation error when `comment` is blank. -/
def envW : Env := {
  getModel := fun appLabel modelName =>
    if appLabel == "app" && modelName == "model" then some "m" else none,
  lookup := fun model pk =>
    if pk == "1" then .found { model := model, pk := pk }
    else if pk == "404" then .objectDoesNotExist
    else .raised "ValueError",
  form := fun _ data =>
    { securityErrors := if hasField data "badsec" then some "tampered" else none,
      errors := if (getField data "comment").getD "" == "" then ["comment"] else [],
      commentObject := {} },
  receivers := [],
  postReceivers := ["notify"],
  nextId := 7,
  renderComment := fun _ _ _ => "HTML",
  renderFieldError := fun _ => "ERR" }

/-- The environment `envW` with two pre-save receivers: the first returns an
explicit `False`, the second returns `True`. -/
def envVeto : Env :=
  { envW with receivers :=
      [{ name := "r1", respond := fun _ => some false },
       { name := "r2", respond := fun _ => some true }] }

/-- A complete, well-formed Ajax request from an anonymous user. -/
def reqBase : Request := {
  post := [("content_type", "app.model"), ("object_pk", "1"), ("comment", "hello")],
  isAjax := true, userAuthenticated := false, userFullName := "",
  userUsername := "", userEmail := "", remoteAddr := some "127.0.0.1" }

/-- The base request with a `preview` field carrying the empty string. -/
def reqPrev : Request := { reqBase with post := reqBase.post ++ [("preview", "")] }

/-- The base request without its `content_type` field. -/
def reqMissing : Request :=
  { reqBase with post := [("object_pk", "1"), ("comment", "hello")] }

/-- The base request not marked as an Ajax call. -/
def reqNotAjax : Request := { reqBase with isAjax := false }

/-- The base request with a blank comment body (a validation error). -/
def reqErr : Request :=
  { reqBase with post := [("content_type", "app.model"), ("object_pk", "1")] }

/-- The blank-comment request with an empty-string `preview` field. -/
def reqPrevErr : Request := { reqErr with post := reqErr.post ++ [("preview", "")] }

/-- A preview request that also fails the form's security verification. -/
def reqSec : Request :=
  { reqBase with post := reqBase.post ++ [("badsec", "1"), ("preview", "x")] }

/-! ### Helper lemmas -/

theorem savesCount_nil : savesCount [] = 0 := rfl

theorem savesCount_preSaveEffects (env : Env) : savesCount (preSaveEffects env) = 0 := by
  simp [savesCount, preSaveEffects, List.countP_map, Function.comp, isSave]

theorem savesCount_postEffects (l : List String) :
    savesCount (l.map Effect.postSaveInvoked) = 0 := by
  simp [savesCount, List.countP_map, Function.comp, isSave]

theorem savesCount_append (l₁ l₂ : List Effect) :
    savesCount (l₁ ++ l₂) = savesCount l₁ + savesCount l₂ := by
  simp [savesCount, List.countP_append]

theorem savesCount_persistPath (env : Env) (req : Request) (form : Form) :
    savesCount (persistPath env req form).2 =
      if (findVeto (preSaveResponses env (builtComment req form))).isNone then 1 else 0 := by
  unfold persistPath
  cases hv : findVeto (preSaveResponses env (builtComment req form)) with
  | some name => simp [hv, savesCount_preSaveEffects]
  | none =>
    have h1 : savesCount (preSaveEffects env) = 0 := savesCount_preSaveEffects env
    have h2 : savesCount (env.postReceivers.map Effect.postSaveInvoked) = 0 :=
      savesCount_postEffects env.postReceivers
    simp only [savesCount, preSaveEffects, List.countP_map] at h1 h2
    simp [hv, savesCount, List.countP_append, List.countP_cons, List.countP_map,
      isSave, h1, h2]
    intro a ha
    simp only [preSaveEffects, List.mem_map] at ha
    obtain ⟨r, _, rfl⟩ := ha
    rfl

/-- When the request is Ajax, both required fields are present and the
target resolves, the view reduces to the form stage. -/
theorem post_comment_ajax_resolved (env : Env) (req : Request)
    (ctype objectPk : String) (target : Target)
    (hA : req.isAjax = true)
    (hc : getField (fillAuthData req) "content_type" = some ctype)
    (hp : getField (fillAuthData req) "object_pk" = some objectPk)
    (hr : resolveTarget env ctype objectPk = .ok target) :
    post_comment_ajax env req = handleForm env req (fillAuthData req) target := by
  unfold post_comment_ajax
  simp [hA, hc, hp, hr]

/-! ### Claim theorems -/

/-- Claim C3: for every request in which the working field set (after the
authenticated-user auto-fill) lacks `content_type` or `object_pk`, the view
returns the 400 bad request "Missing content_type or object_pk field." and
nothing later runs: no form, no signal, no persistence (empty effect log). -/
theorem missing_fields_bad_request (env : Env) (req : Request)
    (hA : req.isAjax = true)
    (h : getField (fillAuthData req) "content_type" = none ∨
         getField (fillAuthData req) "object_pk" = none) :
    post_comment_ajax env req =
      (.badRequest "Missing content_type or object_pk field.", []) := by
  unfold post_comment_ajax
  rcases h with h | h
  · simp [hA, h]
  · cases hc : getField (fillAuthData req) "content_type" <;> simp [hA, h, hc]

/-- Witness for claim C3, at a concrete request lacking `content_type`. -/
theorem missing_fields_bad_request_witness :
    post_comment_ajax envW reqMissing =
      (.badRequest "Missing content_type or object_pk field.", []) :=
  missing_fields_bad_request envW reqMissing rfl (Or.inl rfl)

/-- Claim C9, counterexample: at a concrete non-Ajax request the view does
return a 400, but its message is "Expecting Ajax call", not the
"not an async call" the claim states. -/
theorem not_ajax_message_counterexample :
    (post_comment_ajax envW reqNotAjax).1 = Response.badRequest "Expecting Ajax call" ∧
    Response.badRequest "Expecting Ajax call" ≠ Response.badRequest "not an async call" := by
  constructor
  · rfl
  · decide

/-- Claim C9 as amended: for every request not marked as an Ajax call, the
view fails with a 400 bad request whose message is "Expecting Ajax call",
before any other handler logic runs (empty effect log, no other outcome). -/
theorem not_ajax_bad_request (env : Env) (req : Request)
    (h : req.isAjax = false) :
    post_comment_ajax env req = (.badRequest "Expecting Ajax call", []) := by
  unfold post_comment_ajax
  simp [h]

/-- Witness for the amended claim C9 at a concrete non-Ajax request. -/
theorem not_ajax_bad_request_witness :
    post_comment_ajax envW reqNotAjax = (.badRequest "Expecting Ajax call", []) :=
  not_ajax_bad_request envW reqNotAjax rfl

/-- Claim C4: target resolution maps each of its four failure modes to its
own 400 bad request embedding the escaped offending value: a one-part
`content_type` (`TypeError`) mentions "Invalid content_type value"; an
identifier resolving to no model (`AttributeError`) mentions "does not
resolve to a valid model"; a missing record (`ObjectDoesNotExist`) mentions
"No object matching content-type"; a malformed primary key (`ValueError` /
`ValidationError`) yields the generic lookup message carrying the underlying
exception's class name. -/
theorem resolve_target_failure_messages (env : Env) (ctype objectPk : String) :
    (∀ s, splitOnce ctype (Char.ofNat 46) = [s] →
      resolveTarget env ctype objectPk =
        .error (.badRequest ("Invalid content_type value: " ++ quoteRepr (escapeHtml ctype)))) ∧
    (∀ appLabel modelName, splitOnce ctype (Char.ofNat 46) = [appLabel, modelName] →
      env.getModel appLabel modelName = none →
      resolveTarget env ctype objectPk =
        .error (.badRequest ("The given content-type " ++ quoteRepr (escapeHtml ctype) ++
          " does not resolve to a valid model."))) ∧
    (∀ appLabel modelName model, splitOnce ctype (Char.ofNat 46) = [appLabel, modelName] →
      env.getModel appLabel modelName = some model →
      env.lookup model objectPk = .objectDoesNotExist →
      resolveTarget env ctype objectPk =
        .error (.badRequest ("No object matching content-type " ++
          quoteRepr (escapeHtml ctype) ++ " and object PK " ++
          quoteRepr (escapeHtml objectPk) ++ " exists."))) ∧
    (∀ appLabel modelName model excName, splitOnce ctype (Char.ofNat 46) = [appLabel, modelName] →
      env.getModel appLabel modelName = some model →
      env.lookup model objectPk = .raised excName →
      resolveTarget env ctype objectPk =
        .error (.badRequest ("Attempting go get content-type " ++
          quoteRepr (escapeHtml ctype) ++ " and object PK " ++
          quoteRepr (escapeHtml objectPk) ++ " exists raised " ++ excName))) := by
  refine ⟨?_, ?_, ?_, ?_⟩
  · intro s hs
    unfold resolveTarget
    simp [hs]
  · intro appLabel modelName hs hm
    unfold resolveTarget
    simp [hs, hm]
  · intro appLabel modelName model hs hm hl
    unfold resolveTarget
    simp [hs, hm, hl]
  · intro appLabel modelName model excName hs hm hl
    unfold resolveTarget
    simp [hs, hm, hl]

/-- Witness for claim C4: all four failure modes exercised in `envW`. -/
theorem resolve_target_failure_messages_witness :
    resolveTarget envW "nodot" "1" =
      .error (.badRequest ("Invalid content_type value: " ++ quoteRepr (escapeHtml "nodot"))) ∧
    resolveTarget envW "other.model" "1" =
      .error (.badRequest ("The given content-type " ++ quoteRepr (escapeHtml "other.model") ++
        " does not resolve to a valid model.")) ∧
    resolveTarget envW "app.model" "404" =
      .error (.badRequest ("No object matching content-type " ++
        quoteRepr (escapeHtml "app.model") ++ " and object PK " ++
        quoteRepr (escapeHtml "404") ++ " exists.")) ∧
    resolveTarget envW "app.model" "bad" =
      .error (.badRequest ("Attempting go get content-type " ++
        quoteRepr (escapeHtml "app.model") ++ " and object PK " ++
        quoteRepr (escapeHtml "bad") ++ " exists raised ValueError")) :=
  ⟨(resolve_target_failure_messages envW "nodot" "1").1 "nodot" (by decide),
   (resolve_target_failure_messages envW "other.model" "1").2.1 "other" "model"
     (by decide) (by decide),
   (resolve_target_failure_messages envW "app.model" "404").2.2.1 "app" "model" "m"
     (by decide) (by decide) (by decide),
   (resolve_target_failure_messages envW "app.model" "bad").2.2.2 "app" "model" "m" "ValueError"
     (by decide) (by decide) (by decide)⟩

/-- Claim C1: `comment.save()` runs (exactly once) if and only if the
request reaches the persist path — Ajax, required fields present, target
resolved, no security errors, preview absent, no validation errors — and no
pre-save receiver vetoes the comment; on every other path the effect log
contains no database write at all. -/
theorem comment_persisted_iff (env : Env) (req : Request) :
    savesCount (post_comment_ajax env req).2 =
      if persistConds env req then 1 else 0 := by
  unfold post_comment_ajax persistConds reachesPersist
  by_cases hA : req.isAjax = true
  · simp only [hA, Bool.not_true]
    cases hc : getField (fillAuthData req) "content_type" with
    | none => simp [hc, savesCount]
    | some ctype =>
      cases hpk : getField (fillAuthData req) "object_pk" with
      | none => simp [hc, hpk, savesCount]
      | some objectPk =>
        cases hr : resolveTarget env ctype objectPk with
        | error resp => simp [hc, hpk, hr, savesCount]
        | ok target =>
          unfold handleForm
          cases hs : (env.form target (fillAuthData req)).securityErrors with
          | some errs => simp [hc, hpk, hr, hs, savesCount]
          | none =>
            by_cases hpv : hasField (fillAuthData req) "preview" = true
            · simp [hc, hpk, hr, hs, hpv, savesCount]
            · by_cases he : (env.form target (fillAuthData req)).errors.isEmpty = true
              · simp only [List.isEmpty_iff] at he
                simp [hc, hpk, hr, hs, hpv, he, savesCount_persistPath]
              · simp only [List.isEmpty_iff] at he
                simp [hc, hpk, hr, hs, hpv, he, savesCount]
  · simp only [Bool.not_eq_true] at hA
    simp [hA, savesCount]

/-- The concrete form that `envW` builds for a complete submission. -/
def formW : Form := { securityErrors := none, errors := [], commentObject := {} }

/-- The concrete form that `envW` builds for a blank-comment submission. -/
def formErrW : Form := { securityErrors := none, errors := ["comment"], commentObject := {} }

/-- The target that `envW` resolves for `app.model` and pk `"1"`. -/
def targetW : Target := { model := "m", pk := "1" }

/-- When control reaches the persist path, the view's outcome is that of
`persistPath` on the reached form. -/
theorem post_comment_ajax_persist (env : Env) (req : Request) (form : Form)
    (hp : reachesPersist env req = some form) :
    post_comment_ajax env req = persistPath env req form := by
  unfold reachesPersist at hp
  unfold post_comment_ajax handleForm
  by_cases hA : req.isAjax = true
  · simp only [hA, Bool.not_true] at hp ⊢
    cases hc : getField (fillAuthData req) "content_type" with
    | none => simp [hc] at hp
    | some ctype =>
      cases hpk : getField (fillAuthData req) "object_pk" with
      | none => simp [hc, hpk] at hp
      | some objectPk =>
        cases hr : resolveTarget env ctype objectPk with
        | error resp => simp [hc, hpk, hr] at hp
        | ok target =>
          cases hs : (env.form target (fillAuthData req)).securityErrors with
          | some errs => simp [hc, hpk, hr, hs] at hp
          | none =>
            by_cases hpv : hasField (fillAuthData req) "preview" = true
            · simp [hc, hpk, hr, hs, hpv] at hp
            · by_cases he : (env.form target (fillAuthData req)).errors.isEmpty = true
              · simp only [List.isEmpty_iff] at he
                simp [hc, hpk, hr, hs, hpv, he] at hp
                rw [hp] at hs he
                simp [hc, hpk, hr, hs, hpv, he, hp]
              · simp only [List.isEmpty_iff] at he
                simp [hc, hpk, hr, hs, hpv, he] at hp
  · simp only [Bool.not_eq_true] at hA
    simp [hA] at hp

/-- Claim C2, counterexample: with two registered pre-save receivers, the
first returning an explicit False, the view rejects the comment naming the
first receiver — yet the second receiver has also been invoked by the
dispatch, so listener invocation does not stop at the veto. -/
theorem veto_invokes_all_counterexample :
    (post_comment_ajax envVeto reqBase).1 = Response.badRequest (vetoMsg "r1") ∧
    Effect.preSaveInvoked "r2" ∈ (post_comment_ajax envVeto reqBase).2 := by
  constructor
  · rfl
  · decide

/-- Claim C2 as amended: on the persist path, if some pre-save receiver
response compares equal to False, the view returns the 400 bad request
naming the first such receiver in registration order, no save occurs — but
the dispatch has already invoked every registered receiver (the effect log
is exactly one invocation per registered receiver). -/
theorem veto_first_aborts (env : Env) (req : Request) (form : Form) (name : String)
    (hp : reachesPersist env req = some form)
    (hv : findVeto (preSaveResponses env (builtComment req form)) = some name) :
    post_comment_ajax env req = (.badRequest (vetoMsg name), preSaveEffects env) ∧
    savesCount (post_comment_ajax env req).2 = 0 := by
  have h := post_comment_ajax_persist env req form hp
  rw [h]
  unfold persistPath
  simp [hv, savesCount_preSaveEffects]

/-- Witness for the amended claim C2 in the two-receiver environment. -/
theorem veto_first_aborts_witness :
    post_comment_ajax envVeto reqBase =
      (.badRequest (vetoMsg "r1"), preSaveEffects envVeto) ∧
    savesCount (post_comment_ajax envVeto reqBase).2 = 0 :=
  veto_first_aborts envVeto reqBase formW "r1" (by decide) (by decide)

/-- Claim C5: once the target is resolved and the form passes the security
check, the view treats the submission as a preview — the envelope action is
`"preview"` — exactly when the key `"preview"` is present in the working
field set, whatever its value. -/
theorem preview_is_key_presence (env : Env) (req : Request)
    (ctype objectPk : String) (target : Target)
    (hA : req.isAjax = true)
    (hc : getField (fillAuthData req) "content_type" = some ctype)
    (hpk : getField (fillAuthData req) "object_pk" = some objectPk)
    (hr : resolveTarget env ctype objectPk = .ok target)
    (hs : (env.form target (fillAuthData req)).securityErrors = none) :
    (responseAction (post_comment_ajax env req).1 = some "preview") ↔
      hasField (fillAuthData req) "preview" = true := by
  rw [post_comment_ajax_resolved env req ctype objectPk target hA hc hpk hr]
  unfold handleForm
  by_cases hpv : hasField (fillAuthData req) "preview" = true
  · simp [hs, hpv, ajax_result, responseAction]
  · by_cases he : (env.form target (fillAuthData req)).errors.isEmpty = true
    · simp only [List.isEmpty_iff] at he
      unfold persistPath
      cases hv : findVeto
          (preSaveResponses env (builtComment req (env.form target (fillAuthData req)))) with
      | some nm => simp [hs, hpv, he, hv, responseAction]
      | none => simp [hs, hpv, he, hv, ajax_result, responseAction]
    · simp only [List.isEmpty_iff] at he
      simp [hs, hpv, he, ajax_result, responseAction]

/-- Witness for claim C5: the empty string as the `preview` value counts as
present, so the concrete preview request yields the `"preview"` action. -/
theorem preview_is_key_presence_witness :
    (responseAction (post_comment_ajax envW reqPrev).1 = some "preview") ↔
      hasField (fillAuthData reqPrev) "preview" = true :=
  preview_is_key_presence envW reqPrev "app.model" "1" targetW rfl (by decide)
    (by decide) rfl (by decide)

/-- Claim C6: with a resolvable target, a form with no security and no
validation errors, and the preview flag present, the response is the JSON
envelope with action `"preview"`, success true, non-null html (the rendered
comment), null comment id, and nothing is persisted (empty effect log). -/
theorem preview_success_envelope (env : Env) (req : Request)
    (ctype objectPk : String) (target : Target) (form : Form)
    (hA : req.isAjax = true)
    (hc : getField (fillAuthData req) "content_type" = some ctype)
    (hpk : getField (fillAuthData req) "object_pk" = some objectPk)
    (hr : resolveTarget env ctype objectPk = .ok target)
    (hf : env.form target (fillAuthData req) = form)
    (hs : form.securityErrors = none)
    (he : form.errors = [])
    (hpv : hasField (fillAuthData req) "preview" = true) :
    post_comment_ajax env req =
      (.json { success := true, action := "preview", errors := [],
               html := some (env.renderComment form.getCommentObject "preview" true),
               commentId := none }, []) := by
  rw [post_comment_ajax_resolved env req ctype objectPk target hA hc hpk hr]
  unfold handleForm
  rw [hf]
  simp [hs, hpv, he, ajax_result, Form.getCommentObject]

/-- Witness for claim C6 at the concrete preview request. -/
theorem preview_success_envelope_witness :
    post_comment_ajax envW reqPrev =
      (.json { success := true, action := "preview", errors := [],
               html := some (envW.renderComment formW.getCommentObject "preview" true),
               commentId := none }, []) :=
  preview_success_envelope envW reqPrev "app.model" "1" targetW formW rfl (by decide)
    (by decide) rfl (by decide) rfl rfl (by decide)

/-- Claim C7: with a resolvable target, no security errors, at least one
validation error and no preview flag, the response is the JSON envelope —
an HTTP-success JSON response, not a 400 — with action `"post"`, success
false, one rendered entry per erroring field, null html, null comment id,
and nothing is persisted (empty effect log). -/
theorem post_errors_envelope (env : Env) (req : Request)
    (ctype objectPk : String) (target : Target) (form : Form)
    (hA : req.isAjax = true)
    (hc : getField (fillAuthData req) "content_type" = some ctype)
    (hpk : getField (fillAuthData req) "object_pk" = some objectPk)
    (hr : resolveTarget env ctype objectPk = .ok target)
    (hf : env.form target (fillAuthData req) = form)
    (hs : form.securityErrors = none)
    (he : form.errors ≠ [])
    (hpv : hasField (fillAuthData req) "preview" = false) :
    post_comment_ajax env req =
      (.json { success := false, action := "post",
               errors := form.errors.map (fun f => (f, render_errors env f)),
               html := none, commentId := none }, []) := by
  rw [post_comment_ajax_resolved env req ctype objectPk target hA hc hpk hr]
  unfold handleForm
  rw [hf]
  simp [hs, hpv, he, ajax_result, List.isEmpty_iff]

/-- Witness for claim C7 at the concrete blank-comment request. -/
theorem post_errors_envelope_witness :
    post_comment_ajax envW reqErr =
      (.json { success := false, action := "post",
               errors := formErrW.errors.map (fun f => (f, render_errors envW f)),
               html := none, commentId := none }, []) :=
  post_errors_envelope envW reqErr "app.model" "1" targetW formErrW rfl (by decide)
    (by decide) rfl (by decide) rfl (by decide) (by decide)

/-- Claim C8: whenever the comment form reports security errors, the view
returns the 400 bad request "The comment form failed security verification"
with the escaped error detail, before the preview/post branching — the
theorem holds for any working field set, with or without the preview flag —
producing no JSON envelope and persisting nothing (empty effect log). -/
theorem security_errors_bad_request (env : Env) (req : Request)
    (ctype objectPk : String) (target : Target) (errs : String)
    (hA : req.isAjax = true)
    (hc : getField (fillAuthData req) "content_type" = some ctype)
    (hpk : getField (fillAuthData req) "object_pk" = some objectPk)
    (hr : resolveTarget env ctype objectPk = .ok target)
    (hs : (env.form target (fillAuthData req)).securityErrors = some errs) :
    post_comment_ajax env req =
      (.badRequest ("The comment form failed security verification: " ++ escapeHtml errs),
       []) := by
  rw [post_comment_ajax_resolved env req ctype objectPk target hA hc hpk hr]
  unfold handleForm
  simp [hs]

/-- Witness for claim C8 at a concrete request that fails security
verification while also carrying a preview flag. -/
theorem security_errors_bad_request_witness :
    post_comment_ajax envW reqSec =
      (.badRequest ("The comment form failed security verification: " ++
        escapeHtml "tampered"), []) :=
  security_errors_bad_request envW reqSec "app.model" "1" targetW "tampered" rfl
    (by decide) (by decide) rfl (by decide)

/-- Claim C10: with the preview flag present and a form with validation
errors (but no security errors), the view still answers with the JSON
envelope for action `"preview"` — not a 400 and not `"post"` — with success
false, the per-field errors populated, null html (no comment object is
built when the form has errors), null comment id, and nothing persisted. -/
theorem preview_errors_envelope (env : Env) (req : Request)
    (ctype objectPk : String) (target : Target) (form : Form)
    (hA : req.isAjax = true)
    (hc : getField (fillAuthData req) "content_type" = some ctype)
    (hpk : getField (fillAuthData req) "object_pk" = some objectPk)
    (hr : resolveTarget env ctype objectPk = .ok target)
    (hf : env.form target (fillAuthData req) = form)
    (hs : form.securityErrors = none)
    (he : form.errors ≠ [])
    (hpv : hasField (fillAuthData req) "preview" = true) :
    post_comment_ajax env req =
      (.json { success := false, action := "preview",
               errors := form.errors.map (fun f => (f, render_errors env f)),
               html := none, commentId := none }, []) := by
  rw [post_comment_ajax_resolved env req ctype objectPk target hA hc hpk hr]
  unfold handleForm
  rw [hf]
  simp [hs, hpv, he, ajax_result, List.isEmpty_iff]

/-- Witness for claim C10 at the concrete blank-comment preview request. -/
theorem preview_errors_envelope_witness :
    post_comment_ajax envW reqPrevErr =
      (.json { success := false, action := "preview",
               errors := formErrW.errors.map (fun f => (f, render_errors envW f)),
               html := none, commentId := none }, []) :=
  preview_errors_envelope envW reqPrevErr "app.model" "1" targetW formErrW rfl
    (by decide) (by decide) rfl (by decide) rfl (by decide) (by decide)

end FluentComments
